import Mathlib

/-!
# Verification of the badminton booking bot against its specification

Shallow embedding of the repository's Python sources, mainly
`bot_handlers.py` (the conversation engine), together with the call
surface of `google_calendar_event_creator.py` (the calendar adapter)
and `gemini_client.py` (the extraction adapter).

Modelling conventions:
* Python strings are Lean `String`; the regular-expression class `\d`
  is modelled as the ASCII digits `'0'`-`'9'` (theorems that
  characterise an acceptance set completely carry an ASCII-input
  hypothesis, marking the domain on which the model is exact).
* Telegram message identifiers are `Nat`; freshness of newly delivered
  or newly sent messages is modelled with a counter `nextId` in the
  session state: every new message receives the current counter value.
* The external adapters (Google calendar, Gemini extraction) are
  modelled as oracles: an event carries the outcome the adapter call
  would produce, and the engine's handling of that outcome is what is
  embedded and verified.
* Side effects (adapter calls, per-message deletion attempts, sent
  messages) are returned as an explicit effect trace, in program order.
-/

namespace BadmintonBot

/-! ## ASCII digit helpers (model of `\d` and of `int()` on digit strings) -/

/-- ASCII digit test: model of the regex class `\d` on ASCII text. -/
def isDig (c : Char) : Bool := 48 ≤ c.toNat && c.toNat ≤ 57

/-- Numeric value of a digit string, most significant digit first
(model of Python `int()` on a string of ASCII digits). -/
def digitsVal (cs : List Char) : Nat :=
  cs.foldl (fun a c => 10 * a + (c.toNat - 48)) 0

/-- A string is ASCII when every character is below code point 128. -/
def asciiStr (s : String) : Prop := ∀ c ∈ s.data, c.toNat < 128

instance (s : String) : Decidable (asciiStr s) := by
  unfold asciiStr; infer_instance

/-! ## Date validation: embedding of `datetime.strptime(user_date, '%Y-%m-%d')`
(`bot_handlers.py`, `get_date`, line 245).

CPython's `_strptime` compiles the format into the regular expression
`(?P<Y>\d\d\d\d)\-(?P<m>1[0-2]|0[1-9]|[1-9])\-(?P<d>3[01]|[12]\d|0[1-9]|[1-9])`,
requires the match to consume the whole string, and then builds a
`datetime`, which checks `1 <= year <= 9999`, `1 <= month <= 12` and
`1 <= day <= days_in_month(year, month)`.  Note that the month and the
day may be written with ONE digit as well as two. -/

/-- Month token of `_strptime`'s regex: `1[0-2]|0[1-9]|[1-9]`. -/
def monthTok (cs : List Char) : Bool :=
  match cs with
  | [c] => 49 ≤ c.toNat && c.toNat ≤ 57
  | [a, b] => (a.toNat = 49 && 48 ≤ b.toNat && b.toNat ≤ 50)
      || (a.toNat = 48 && 49 ≤ b.toNat && b.toNat ≤ 57)
  | _ => false

/-- Day token of `_strptime`'s regex: `3[01]|[12]\d|0[1-9]|[1-9]`. -/
def dayTok (cs : List Char) : Bool :=
  match cs with
  | [c] => 49 ≤ c.toNat && c.toNat ≤ 57
  | [a, b] => (a.toNat = 51 && (b.toNat = 48 || b.toNat = 49))
      || ((a.toNat = 49 || a.toNat = 50) && isDig b)
      || (a.toNat = 48 && 49 ≤ b.toNat && b.toNat ≤ 57)
  | _ => false

/-- Gregorian leap-year test, as in `datetime`. -/
def isLeap (y : Nat) : Bool := y % 4 = 0 && (y % 100 ≠ 0 || y % 400 = 0)

/-- Number of days of a month, as in `datetime`. -/
def daysInMonth (y m : Nat) : Nat :=
  if m = 2 then (if isLeap y then 29 else 28)
  else if m = 4 || m = 6 || m = 9 || m = 11 then 30
  else 31

/-- Embedding of `datetime.strptime(s, '%Y-%m-%d')` on a character list:
`some (y, m, d)` when the parse succeeds, `none` when the Python call
raises `ValueError`.  The digit run after the first hyphen is the month
token and the digit run after the second hyphen is the day token (the
regex tokens are digit-only, so the decomposition at the literal
hyphens is unique). -/
def strptimeYmdChars (cs : List Char) : Option (Nat × Nat × Nat) :=
  match cs with
  | y1 :: y2 :: y3 :: y4 :: h :: rest =>
    if h = '-' ∧ isDig y1 = true ∧ isDig y2 = true ∧ isDig y3 = true ∧ isDig y4 = true then
      match rest.dropWhile isDig with
      | h2 :: ds =>
        if h2 = '-' ∧ monthTok (rest.takeWhile isDig) = true ∧ dayTok ds = true then
          if 1 ≤ digitsVal [y1, y2, y3, y4] ∧
              digitsVal ds ≤ daysInMonth (digitsVal [y1, y2, y3, y4])
                (digitsVal (rest.takeWhile isDig)) then
            some (digitsVal [y1, y2, y3, y4], digitsVal (rest.takeWhile isDig), digitsVal ds)
          else none
        else none
      | [] => none
    else none
  | _ => none

/-- Embedding of `datetime.strptime(s, '%Y-%m-%d')` on a string. -/
def strptimeYmd (s : String) : Option (Nat × Nat × Nat) := strptimeYmdChars s.data

/-! ## Time validation: embedding of
`re.compile(r'^([01]\d|2[0-3]):([0-5]\d)-([01]\d|2[0-3]):([0-5]\d)$').match(user_time)`
(`bot_handlers.py`, `get_time`, lines 273-274).

In Python, `$` (without `re.MULTILINE`) matches at the end of the string
or just before a newline at the end of the string, so the pattern also
accepts a well-shaped time range followed by one trailing `'\n'`. -/

/-- Hour alternation `[01]\d|2[0-3]` on two characters. -/
def hourOK (a b : Char) : Bool :=
  ((a.toNat = 48 || a.toNat = 49) && isDig b)
    || (a.toNat = 50 && 48 ≤ b.toNat && b.toNat ≤ 51)

/-- Minute pattern `[0-5]\d` on two characters. -/
def minuteOK (a b : Char) : Bool :=
  (48 ≤ a.toNat && a.toNat ≤ 53) && isDig b

/-- The body of the time pattern (everything between `^` and `$`). -/
def timeCore (cs : List Char) : Bool :=
  match cs with
  | [a, b, k1, c, d, k2, e, f, k3, g, h] =>
    k1 == ':' && k2 == '-' && k3 == ':'
      && hourOK a b && minuteOK c d && hourOK e f && minuteOK g h
  | _ => false

/-- Embedding of the anchored `re.match` call: the body must consume the
whole string, or the whole string minus one trailing newline
(Python `$` semantics). -/
def timePatternMatch (s : String) : Bool :=
  timeCore s.data
    || (match s.data.getLast? with
        | some c => c == '\n' && timeCore s.data.dropLast
        | none => false)

/-! ## Python dictionaries with nullable string values

The booking draft (`context.user_data['booking']`) and the JSON object
returned by the extraction adapter are Python dicts mapping string keys
to strings or `None`; embedded as association lists. -/

/-- A Python dict with nullable string values, as an association list. -/
abbrev PyDict := List (String × Option String)

/-- Raw key lookup: `some v` when the key is present with value `v`
(which may itself be Python `None`), `none` when the key is missing. -/
def dictGet (d : PyDict) (k : String) : Option (Option String) :=
  (d.find? (fun kv => kv.1 == k)).map (·.2)

/-- `d[k] = v`: replace the value of an existing key, append otherwise. -/
def dictSet (d : PyDict) (k : String) (v : Option String) : PyDict :=
  if d.any (fun kv => kv.1 == k) then
    d.map (fun kv => if kv.1 == k then (k, v) else kv)
  else d ++ [(k, v)]

/-- Python `d.get(k)`: `None` when the key is missing or maps to `None`. -/
def pyGet (d : PyDict) (k : String) : Option String := (dictGet d k).bind id

/-- Rendering of an optional string inside an f-string: `None` prints
as the text `"None"`. -/
def pyStrOpt : Option String → String
  | some s => s
  | none => "None"

/-- Python truthiness of `d.get(k)`-like optional strings: `None` and
the empty string are falsy. -/
def pyTruthyStr : Option String → Bool
  | some s => s ≠ ""
  | none => false

/-- `booking_data.get(k, 'Not specified')` rendered in an f-string
(`format_booking_details`): the default only applies when the key is
missing; a key present with value `None` renders as `"None"`. -/
def pyGetRender (d : PyDict) (k : String) : String :=
  match dictGet d k with
  | none => "Not specified"
  | some v => pyStrOpt v

/-- Embedding of `format_booking_details` (`bot_handlers.py` lines 28-35). -/
def format_booking_details (b : PyDict) : String :=
  "**Event:** Badminton Booking\n**Date:** " ++ pyGetRender b "date" ++
  "\n**Time:** " ++ pyGetRender b "time" ++
  "\n**Location:** " ++ pyGetRender b "location" ++
  "\n**Booked by:** " ++ pyGetRender b "booker_name"

/-! ## Message texts sent by the engine (verbatim from `bot_handlers.py`) -/

/-- Final text on successful event creation (lines 400-404). -/
def confirmSuccessText (link : String) : String :=
  "✅ Confirmed! A Google Calendar event has been created.\n\n**Event Link:** " ++
    link ++ "\n\nThis conversation is now over. To create another event, use /create."

/-- Final text when the adapter returns `None` (line 411). -/
def createFailedText : String :=
  "❌ Failed to create a calendar event. Please check the logs or try again later."

/-- Final text when the adapter call raises (line 420). -/
def createErrorText : String :=
  "❌ An unexpected error occurred while creating the calendar event. Please try again later."

/-- Final text of the defensive no-booking-data branch (line 362). -/
def noDataText : String :=
  "No booking data found. Please start over with /create."

/-- Final text of the cancellation paths (lines 443-445 and 460-462). -/
def cancelText : String :=
  "❌ Canceled. The event was not created. This conversation is now over. To start again, use /create."

/-- Re-prompt for an oversized photo (line 190). -/
def tooLargeText : String :=
  "The uploaded image is too large (max 5MB allowed). Please upload a smaller image or use manual input."

/-- Re-prompt when extraction returns no details (line 201). -/
def extractFailText : String :=
  "Could not extract booking details from the image. Please try again with a clearer image or use manual input."

/-- Re-prompt when the extraction call raises (lines 225-227). -/
def extractErrorText : String :=
  "An error occurred while processing the image. Please try again or use manual input.\n\nType /cancel to exit."

/-- Mode-choice menu text of `create_command` (line 125). -/
def menuText : String := "How would you like to create your event?"

/-- Date prompt of `start_manual_input` (lines 143-144). -/
def datePromptText : String :=
  "Let's create a new event. First, please provide the event date (e.g., 'YYYY-MM-DD'):\n\nType /cancel to exit."

/-- Image prompt of `start_image_upload` (lines 161-162). -/
def imagePromptText : String :=
  "Please upload an image of your booking confirmation. The bot will automatically extract the details.\n\nType /cancel to exit."

/-- Time prompt of `get_date` (lines 251-252). -/
def timePromptText : String :=
  "Great. Now, please provide the event time (e.g., 'HH:MM-HH:MM'):\n\nType /cancel to exit."

/-- Invalid-date re-prompt of `get_date` (line 258). -/
def dateInvalidText : String :=
  "Invalid date format. Please use YYYY-MM-DD, for example '2025-08-20'."

/-- Location prompt of `get_time` (lines 280-281). -/
def locationPromptText : String :=
  "Thanks. Now, please provide the location (e.g., 'ABC Badminton Hall, Court 3'):\n\nType /cancel to exit."

/-- Invalid-time re-prompt of `get_time` (line 287). -/
def timeInvalidText : String :=
  "Invalid time format. Please use HH:MM-HH:MM, for example '19:00-21:00'."

/-- Booker prompt of `get_location` (lines 307-308). -/
def bookerPromptText : String :=
  "Who booked the court? Please provide a name:\n\nType /cancel to exit."

/-- Summary text after extraction (`process_photo`, lines 215-216). -/
def extractSummaryText (b : PyDict) : String :=
  "I've extracted the following details from your image:\n\n" ++
    format_booking_details b ++ "\n\nWould you like to confirm this event?"

/-- Summary text after manual input (`get_booker_name`, lines 337-338). -/
def manualSummaryText (b : PyDict) : String :=
  "I've collected the following details:\n\n" ++
    format_booking_details b ++ "\n\nWould you like to confirm this event?"

/-- The dead `fallback_handler`'s text (line 473); defined in the source
but never registered in the conversation handler. -/
def fallbackText : String :=
  "I didn't understand that. Please use the buttons or /cancel to exit."

/-! ## The calendar adapter's call surface
(`google_calendar_event_creator.py`) -/

/-- The adapter-call outcomes observable by the engine, per the contract
`createEvent(...) -> link | null` plus the raising case. -/
inductive AdapterOutcome where
  | link (url : String)
  | null
  | raises
deriving Repr, DecidableEq

/-- The parameter list of `create_calendar_event` (line 41), each with a
flag telling whether it has a default value:
`(date: str, time_range: str, location: str, summary: str = "Badminton Booking")`. -/
def create_calendar_event_params : List (String × Bool) :=
  [("date", false), ("time_range", false), ("location", false), ("summary", true)]

/-- The keyword-argument names `confirm_event` passes to
`create_calendar_event` (`bot_handlers.py` lines 386-391). -/
def confirm_call_kwargs : List String :=
  ["date", "time_range", "location", "description"]

/-- Python keyword binding: a call with keyword arguments binds iff every
keyword names a parameter and every parameter without a default is
covered; otherwise the call raises `TypeError`. -/
def pyKwargsBindOk (params : List (String × Bool)) (kwargs : List String) : Bool :=
  kwargs.all (fun k => params.any (fun p => p.1 == k))
    && params.all (fun p => p.2 || kwargs.contains p.1)

/-- The event description `create_calendar_event` itself puts into the
calendar request (line 70): `f"A badminton session at {location}"`. -/
def gceEventDescription (location : String) : String :=
  "A badminton session at " ++ location

/-- The top-level functions defined by `google_calendar_event_creator.py`
(the whole module defines exactly one). -/
def google_calendar_event_creator_defs : List String := ["create_calendar_event"]

/-! ## The conversation engine's state (`bot_handlers.py`) -/

/-- The conversation states (line 25). -/
inductive ConvState where
  | AWAIT_MODE
  | AWAIT_IMAGE
  | AWAIT_DATE
  | AWAIT_TIME
  | AWAIT_LOCATION
  | AWAIT_BOOKER_NAME
  | CONFIRM_DETAILS
deriving Repr, DecidableEq

/-- `context.user_data` for one chat: the booking draft, the transcript
ids queued for deletion, and the two preserved anchor ids (the `/create`
command message and, when present, the quoted image message). A missing
key is collapsed to `none` / `[]` (the code reads the list with
`.get(..., [])`). -/
structure UserData where
  booking : Option PyDict
  messages_to_delete : List Nat
  initial_message_id : Option Nat
  quoted_image_id : Option Nat
deriving Repr, DecidableEq

/-- `context.user_data.clear()`. -/
def clearedUD : UserData := ⟨none, [], none, none⟩

/-- One chat's session: the `ConversationHandler` position (`none` when
no conversation is active), the user data, and the fresh message-id
counter (every newly delivered or newly sent message takes the current
counter value; Telegram ids are strictly increasing per chat). -/
structure Session where
  conv : Option ConvState
  ud : UserData
  nextId : Nat
deriving Repr, DecidableEq

/-- The initial session of a chat: no conversation, empty user data. -/
def initSession : Session := ⟨none, ⟨none, [], none, none⟩, 0⟩

/-- The side effects a handler performs, in program order. -/
inductive Effect where
  | callCreateEvent (date time location : Option String) (description : String)
  | callExtract
  | tryDelete (msgId : Nat)
  | sendMessage (text : String)
deriving Repr, DecidableEq

/-- Embedding of `delete_messages` (lines 37-45) with a per-id failure
oracle: each id is attempted in order; a failing deletion is logged and
the loop continues, so the attempted ids never depend on the oracle. -/
def delete_messages (fail : Nat → Bool) (ids : List Nat) : List (Nat × Bool) :=
  ids.map (fun i => (i, fail i))

/-- The deletion-attempt effects of a `delete_messages` call. -/
def deleteEffects (ids : List Nat) : List Effect := ids.map .tryDelete

/-- Helpers on effects. -/
def Effect.isCallCreate : Effect → Bool
  | .callCreateEvent _ _ _ _ => true
  | _ => false

def Effect.isCallExtract : Effect → Bool
  | .callExtract => true
  | _ => false

def Effect.isTryDelete : Effect → Bool
  | .tryDelete _ => true
  | _ => false

def Effect.isSend : Effect → Bool
  | .sendMessage _ => true
  | _ => false

/-- The texts of the messages sent in an effect trace. -/
def sentTexts (effs : List Effect) : List String :=
  effs.filterMap (fun e => match e with
    | .sendMessage t => some t
    | _ => none)

/-- The ids whose deletion was attempted in an effect trace. -/
def deletedIds (effs : List Effect) : List Nat :=
  effs.filterMap (fun e => match e with
    | .tryDelete i => some i
    | _ => none)

/-! ## Session-updating helpers -/

/-- A new message (delivered or sent) takes the fresh id `nextId` and is
recorded in the transcript list; the counter advances. -/
def appendDel (s : Session) : Session :=
  { s with
    ud := { s.ud with messages_to_delete := s.ud.messages_to_delete ++ [s.nextId] },
    nextId := s.nextId + 1 }

/-- Set the conversation-handler position. -/
def withConv (s : Session) (st : ConvState) : Session := { s with conv := some st }

/-- `context.user_data['booking'] := d`. -/
def setBooking (s : Session) (d : PyDict) : Session :=
  { s with ud := { s.ud with booking := some d } }

/-- Store one field into the draft, creating the dict if missing
(the `if 'booking' not in context.user_data` idiom). -/
def storeBookingField (s : Session) (k : String) (v : String) : Session :=
  setBooking s (dictSet (s.ud.booking.getD []) k (some v))

/-- Python truthiness of `context.user_data.get('booking')`:
falsy when missing or when it is the empty dict. -/
def bookingFalsy (b : Option PyDict) : Bool :=
  match b with
  | none => true
  | some d => d.isEmpty

/-! ## Handler embeddings (`bot_handlers.py`) -/

/-- Embedding of `confirm_event` (lines 346-426), with the calendar
adapter as an oracle.  The defensive no-data branch deletes the
transcript and reports; otherwise the adapter is called once with the
synthesized description, and the outcome selects the final message.
On the link / null outcomes `delete_messages` runs before the final
message; on a raising call the `except` branch only sends the error
text (the deletion call sits inside the `try`, after the adapter call,
and is skipped).  `context.user_data.clear()` runs in every branch. -/
def confirm_event (maxCapacity : String) (ud : UserData) (outcome : AdapterOutcome) :
    List Effect × UserData :=
  if bookingFalsy ud.booking then
    (deleteEffects ud.messages_to_delete ++ [.sendMessage noDataText], clearedUD)
  else
    let b := ud.booking.getD []
    let date := pyGet b "date"
    let time := pyGet b "time"
    let location := pyGet b "location"
    let booker := pyGet b "booker_name"
    let descLines : List String :=
      (if maxCapacity ≠ "" then ["MAX=" ++ maxCapacity] else []) ++
        [if pyTruthyStr booker then
          "Court booked by " ++ pyStrOpt booker ++ ". Location: " ++ pyStrOpt location
        else "Location: " ++ pyStrOpt location]
    let description := String.intercalate "\n" descLines
    (.callCreateEvent date time location description ::
      (match outcome with
       | .link l => deleteEffects ud.messages_to_delete ++ [.sendMessage (confirmSuccessText l)]
       | .null => deleteEffects ud.messages_to_delete ++ [.sendMessage createFailedText]
       | .raises => [.sendMessage createErrorText]),
     clearedUD)

/-- Embedding of `cancel_event` via the ❌ button (lines 435-448). -/
def cancel_event_button (ud : UserData) : List Effect × UserData :=
  (deleteEffects ud.messages_to_delete ++ [.sendMessage cancelText], clearedUD)

/-- Embedding of `cancel_event` via the `/cancel` command (lines 449-464):
the command message itself is appended to the deletion list first. -/
def cancel_event_command (cancelMsgId : Nat) (ud : UserData) : List Effect × UserData :=
  (deleteEffects (ud.messages_to_delete ++ [cancelMsgId]) ++ [.sendMessage cancelText],
   clearedUD)

/-- Embedding of `process_photo` (lines 168-230) from the size gate on.
`isReply = true` is the quoted-image path entered from `create_command`
(the photo's id is an anchor and is NOT recorded); otherwise the freshly
delivered photo's id is recorded for deletion.  `res` is the extraction
oracle: `.error` models `extract_booking_info` raising, `.ok d` the
returned dict (`{}` when the adapter reports failure). -/
def process_photo_core (s : Session) (isReply : Bool) (size : Nat)
    (res : Except Unit PyDict) : Session × List Effect :=
  let s1 := if isReply then s else appendDel s
  if size > 5 * 1024 * 1024 then
    (withConv (appendDel s1) .AWAIT_IMAGE, [.sendMessage tooLargeText])
  else
    match res with
    | .error _ =>
      (withConv (appendDel s1) .AWAIT_IMAGE, [.callExtract, .sendMessage extractErrorText])
    | .ok d =>
      if d.isEmpty then
        (withConv (appendDel s1) .AWAIT_IMAGE, [.callExtract, .sendMessage extractFailText])
      else
        (withConv (appendDel (setBooking s1 d)) .CONFIRM_DETAILS,
         [.callExtract, .sendMessage (extractSummaryText d)])

/-- Embedding of `create_command` (lines 103-130).  The `/create` message
takes a fresh id and becomes the preserved initial anchor; the deletion
list is re-initialised.  When the command replies to a photo, that
photo's (older) id becomes the quoted anchor and the extraction path is
entered directly; otherwise the mode menu is sent. -/
def create_command (s : Session) (quoted : Option (Nat × Nat × Except Unit PyDict)) :
    Session × List Effect :=
  let cmdId := s.nextId
  let s1 : Session :=
    { s with
      ud := { s.ud with initial_message_id := some cmdId, messages_to_delete := [] },
      nextId := s.nextId + 1 }
  match quoted with
  | some (qid, size, res) =>
    let s2 : Session := { s1 with ud := { s1.ud with quoted_image_id := some qid } }
    process_photo_core s2 true size res
  | none =>
    (withConv (appendDel s1) .AWAIT_MODE, [.sendMessage menuText])

/-- Embedding of `start_manual_input` (lines 132-148): delete the menu
transcript, send the date prompt, transcript becomes just the prompt. -/
def start_manual_input (s : Session) : Session × List Effect :=
  let del := deleteEffects s.ud.messages_to_delete
  let s1 : Session := { s with ud := { s.ud with messages_to_delete := [] } }
  (withConv (appendDel s1) .AWAIT_DATE, del ++ [.sendMessage datePromptText])

/-- Embedding of `start_image_upload` (lines 150-166). -/
def start_image_upload (s : Session) : Session × List Effect :=
  let del := deleteEffects s.ud.messages_to_delete
  let s1 : Session := { s with ud := { s.ud with messages_to_delete := [] } }
  (withConv (appendDel s1) .AWAIT_IMAGE, del ++ [.sendMessage imagePromptText])

/-- Embedding of `get_date` (lines 233-261): empty text is returned to
`AWAIT_DATE` untouched; otherwise the user message is recorded, then
`strptime` decides between storing+advancing and re-prompting. -/
def get_date (s : Session) (t : String) : Session × List Effect :=
  if t = "" then (s, [])
  else
    let s1 := appendDel s
    match strptimeYmd t with
    | some _ =>
      (withConv (appendDel (storeBookingField s1 "date" t)) .AWAIT_TIME,
       [.sendMessage timePromptText])
    | none =>
      (withConv (appendDel s1) .AWAIT_DATE, [.sendMessage dateInvalidText])

/-- Embedding of `get_time` (lines 263-290). -/
def get_time (s : Session) (t : String) : Session × List Effect :=
  if t = "" then (s, [])
  else
    let s1 := appendDel s
    if timePatternMatch t then
      (withConv (appendDel (storeBookingField s1 "time" t)) .AWAIT_LOCATION,
       [.sendMessage locationPromptText])
    else
      (withConv (appendDel s1) .AWAIT_TIME, [.sendMessage timeInvalidText])

/-- Embedding of `get_location` (lines 292-311): stored verbatim. -/
def get_location (s : Session) (t : String) : Session × List Effect :=
  if t = "" then (s, [])
  else
    let s1 := appendDel s
    (withConv (appendDel (storeBookingField s1 "location" t)) .AWAIT_BOOKER_NAME,
     [.sendMessage bookerPromptText])

/-- Embedding of `get_booker_name` (lines 313-344): stored verbatim,
then the summary with the confirm/cancel keyboard. -/
def get_booker_name (s : Session) (t : String) : Session × List Effect :=
  if t = "" then (s, [])
  else
    let s1 := storeBookingField (appendDel s) "booker_name" t
    (withConv (appendDel s1) .CONFIRM_DETAILS,
     [.sendMessage (manualSummaryText (s1.ud.booking.getD []))])

/-! ## The dispatch table and the step function -/

/-- The inbound events, with adapter oracles attached where the handler
would call an adapter.  `createCmd`'s argument is the quoted photo, when
the command replies to one: its (existing) message id, its file size,
and the extraction oracle. -/
inductive Ev where
  | createCmd (quoted : Option (Nat × Nat × Except Unit PyDict))
  | cbUpload
  | cbManual
  | photoMsg (size : Nat) (res : Except Unit PyDict)
  | textMsg (t : String)
  | cancelCmd
  | cbConfirm (outcome : AdapterOutcome)
  | cbCancel

/-- One update delivered to the chat, dispatched as by the
`ConversationHandler` `conv_handler` (lines 477-510): entry point
`/create` (no re-entry while a conversation is active), the per-state
handler lists, and the single fallback `CommandHandler("cancel", ...)`.
An update matching no handler for the current state and no fallback is
left unhandled: the session is unchanged and nothing is sent (the
`fallback_handler` of line 469 is never registered). -/
def step (maxCapacity : String) (s : Session) (e : Ev) : Session × List Effect :=
  match s.conv, e with
  | none, .createCmd q => create_command s q
  | some .AWAIT_MODE, .cbUpload => start_image_upload s
  | some .AWAIT_MODE, .cbManual => start_manual_input s
  | some .AWAIT_IMAGE, .photoMsg size res => process_photo_core s false size res
  | some .AWAIT_DATE, .textMsg t => get_date s t
  | some .AWAIT_TIME, .textMsg t => get_time s t
  | some .AWAIT_LOCATION, .textMsg t => get_location s t
  | some .AWAIT_BOOKER_NAME, .textMsg t => get_booker_name s t
  | some .CONFIRM_DETAILS, .cbConfirm outcome =>
    let r := confirm_event maxCapacity s.ud outcome
    ({ conv := none, ud := r.2, nextId := s.nextId }, r.1)
  | some .CONFIRM_DETAILS, .cbCancel =>
    let r := cancel_event_button s.ud
    ({ conv := none, ud := r.2, nextId := s.nextId }, r.1)
  | some _, .cancelCmd =>
    let r := cancel_event_command s.nextId s.ud
    ({ conv := none, ud := r.2, nextId := s.nextId + 1 }, r.1)
  | _, _ => (s, [])

/-- Well-formedness of an event against a session: a quoted photo is an
already-existing message of the chat, so its id is below the counter. -/
def WFEv (s : Session) : Ev → Prop
  | .createCmd (some (qid, _, _)) => qid < s.nextId
  | _ => True

/-- The reachable sessions of one chat: the initial session, closed
under well-formed steps (for any configuration value). -/
inductive Reachable : Session → Prop where
  | init : Reachable initSession
  | step (maxCapacity : String) (s : Session) (e : Ev) (hs : Reachable s)
      (hwf : WFEv s e) : Reachable (step maxCapacity s e).1

/-! ## The registered handler table (for the fallback claim) -/

/-- The shapes of update a handler is registered for. -/
inductive HandlerKind where
  | msgText
  | msgPhoto
  | cmd (name : String)
  | cb (data : String)
deriving Repr, DecidableEq

/-- The handler functions of `bot_handlers.py` that appear around the
conversation handler. -/
inductive Handler where
  | start_image_upload
  | start_manual_input
  | process_photo
  | get_date
  | get_time
  | get_location
  | get_booker_name
  | confirm_event
  | cancel_event
  | fallback_handler
deriving Repr, DecidableEq

/-- The inbound update shapes for dispatch purposes: a non-command text
message, a photo message, a command, or an inline-button callback. -/
inductive InKind where
  | text
  | photo
  | command (name : String)
  | callback (data : String)
deriving Repr, DecidableEq

/-- Whether a registered handler matches an update:
`MessageHandler(filters.TEXT & ~filters.COMMAND)` matches non-command
text, `MessageHandler(filters.PHOTO & ~filters.COMMAND)` photos,
`CommandHandler(n)` the command `n`, and a `CallbackQueryHandler` with
anchored pattern `^p$` exactly the callback data `p`. -/
def handlerMatches : HandlerKind → InKind → Bool
  | .msgText, .text => true
  | .msgPhoto, .photo => true
  | .cmd n, .command m => n == m
  | .cb p, .callback d => p == d
  | _, _ => false

/-- The `states` table of `conv_handler` (lines 479-508), verbatim. -/
def stateHandlers : ConvState → List (HandlerKind × Handler)
  | .AWAIT_MODE =>
    [(.cb "upload_image", .start_image_upload), (.cb "manual_input", .start_manual_input)]
  | .AWAIT_IMAGE => [(.msgPhoto, .process_photo), (.cmd "cancel", .cancel_event)]
  | .AWAIT_DATE => [(.msgText, .get_date), (.cmd "cancel", .cancel_event)]
  | .AWAIT_TIME => [(.msgText, .get_time), (.cmd "cancel", .cancel_event)]
  | .AWAIT_LOCATION => [(.msgText, .get_location), (.cmd "cancel", .cancel_event)]
  | .AWAIT_BOOKER_NAME => [(.msgText, .get_booker_name), (.cmd "cancel", .cancel_event)]
  | .CONFIRM_DETAILS =>
    [(.cb "confirm", .confirm_event), (.cb "cancel", .cancel_event)]

/-- The `fallbacks` list of `conv_handler` (line 509), verbatim: only
the `/cancel` command handler — `fallback_handler` is not registered. -/
def convFallbacks : List (HandlerKind × Handler) := [(.cmd "cancel", .cancel_event)]

/-- `ConversationHandler` dispatch while in state `st`: the first
matching handler of the state's list, else the first matching fallback,
else `none` (the update is not handled: no reply, state unchanged). -/
def dispatch (st : ConvState) (i : InKind) : Option Handler :=
  match (stateHandlers st).find? (fun p => handlerMatches p.1 i) with
  | some p => some p.2
  | none =>
    match convFallbacks.find? (fun p => handlerMatches p.1 i) with
    | some p => some p.2
    | none => none

/-! ## The check-upcoming command (`check_badminton_session_command`,
`bot_handlers.py` lines 74-100) -/

/-- An event as returned by a hypothetical `listUpcoming` adapter call:
the fields the formatter reads. -/
structure CalEvent where
  summary : String
  start : String
  stop : String
  location : String
  attendees : List String
deriving Repr, DecidableEq

/-- Python `s.split('T')[0]`. -/
def splitTHead (s : String) : String := (s.splitOn "T").headD ""

/-- Python `s.split('T')[1][:5]` (empty when there is no `'T'`). -/
def splitTTail5 (s : String) : String :=
  match (s.splitOn "T").drop 1 with
  | t :: _ => t.take 5
  | [] => ""

/-- The per-event block of the reply (lines 89-96). -/
def formatCheckEvent (e : CalEvent) : String :=
  let attendeeList :=
    if e.attendees.isEmpty then "No attendees specified"
    else String.intercalate ", " e.attendees
  "- **" ++ e.summary ++ "**\n  📅 Date: " ++ splitTHead e.start ++
    "\n  ⏰ Time: " ++ splitTTail5 e.start ++ " - " ++ splitTTail5 e.stop ++
    "\n  📍 Location: " ++ e.location ++ "\n  👥 Attendees: " ++ attendeeList ++ "\n\n"

/-- The reply text the handler would send for a given event list
(lines 86-98); note the non-empty header says 14 days while the empty
message says 7 days. -/
def formatCheckReply (events : List CalEvent) : String :=
  if events.isEmpty then
    "There are no upcoming badminton sessions in the next 7 days."
  else
    "Here are the upcoming badminton sessions in the next 14 days:\n\n" ++
      String.join (events.map formatCheckEvent)

/-- The number of days the handler asks for: `check_upcoming_events(days=14)`. -/
def checkRequestedDays : Nat := 14

/-- Outcome of running the check-upcoming handler. -/
inductive CheckOutcome where
  | reply (text : String)
  | attributeError
deriving Repr, DecidableEq

/-- Embedding of `check_badminton_session_command` (lines 74-100): the
handler evaluates `calendar_api.check_upcoming_events(days=14)`.  The
attribute lookup on the module is performed first; when the module does
not define the attribute, Python raises `AttributeError` before any
reply is sent (the handler has no try/except).  Otherwise the formatted
reply for the returned events would be sent. -/
def check_badminton_session_command (events : List CalEvent) : CheckOutcome :=
  if google_calendar_event_creator_defs.contains "check_upcoming_events" then
    .reply (formatCheckReply events)
  else .attributeError

/-! ## Claim-side specification predicates (worded from the claims, to
be compared with the embedded code) -/

/-- The date shape claimed by C5: literally `YYYY-MM-DD` — four-digit
year, TWO-digit month, TWO-digit day — and calendar-valid. -/
def specDateClaimShape (s : String) : Prop :=
  ∃ y1 y2 y3 y4 m1 m2 d1 d2 : Char,
    s.data = [y1, y2, y3, y4, '-', m1, m2, '-', d1, d2] ∧
    (∀ c ∈ [y1, y2, y3, y4, m1, m2, d1, d2], isDig c = true) ∧
    1 ≤ digitsVal [y1, y2, y3, y4] ∧
    1 ≤ digitsVal [m1, m2] ∧ digitsVal [m1, m2] ≤ 12 ∧
    1 ≤ digitsVal [d1, d2] ∧
    digitsVal [d1, d2] ≤ daysInMonth (digitsVal [y1, y2, y3, y4]) (digitsVal [m1, m2])

/-- The acceptance set of the date transition per the amended claim:
four-digit year, ONE- or two-digit month and day, calendar-valid. -/
def specStrptimeAcceptChars (cs : List Char) (y m d : Nat) : Prop :=
  ∃ ys ms ds : List Char,
    cs = ys ++ '-' :: (ms ++ '-' :: ds) ∧
    ys.length = 4 ∧ (∀ c ∈ ys, isDig c = true) ∧ y = digitsVal ys ∧ 1 ≤ y ∧
    (ms.length = 1 ∨ ms.length = 2) ∧ (∀ c ∈ ms, isDig c = true) ∧
      m = digitsVal ms ∧ 1 ≤ m ∧ m ≤ 12 ∧
    (ds.length = 1 ∨ ds.length = 2) ∧ (∀ c ∈ ds, isDig c = true) ∧
      d = digitsVal ds ∧ 1 ≤ d ∧ d ≤ daysInMonth y m

/-- The time shape claimed by C6: `HH:MM-HH:MM`, hours `00`-`23`,
minutes `00`-`59`. -/
def specTimeShapeChars (cs : List Char) : Prop :=
  ∃ a b c d e f g h : Char,
    cs = [a, b, ':', c, d, '-', e, f, ':', g, h] ∧
    (∀ x ∈ [a, b, c, d, e, f, g, h], isDig x = true) ∧
    10 * (a.toNat - 48) + (b.toNat - 48) ≤ 23 ∧
    10 * (c.toNat - 48) + (d.toNat - 48) ≤ 59 ∧
    10 * (e.toNat - 48) + (f.toNat - 48) ≤ 23 ∧
    10 * (g.toNat - 48) + (h.toNat - 48) ≤ 59

/-- Claim wording for C9: an extraction result in which no field carries
a value (every present field is null). -/
def allFieldsAbsent (d : PyDict) : Prop := ∀ kv ∈ d, kv.2 = none

/-- The all-null extraction result (what the adapter's prompt instructs
the model to return when no information is found). -/
def allNullExtraction : PyDict :=
  [("date", none), ("time", none), ("location", none), ("booker_name", none)]

/-! ## Concrete fixtures used by witnesses and counterexamples -/

/-- A complete booking draft. -/
def sampleDraft : PyDict :=
  [("date", some "2025-08-20"), ("time", some "19:00-21:00"),
   ("location", some "Hall"), ("booker_name", some "Alice")]

/-- User data at the confirmation step: complete draft, two transcript
messages queued for deletion, the `/create` message as anchor. -/
def sampleConfirmUD : UserData := ⟨some sampleDraft, [11, 12], some 10, none⟩

/-- A session waiting for the date. -/
def sampleAwaitDate : Session := ⟨some .AWAIT_DATE, ⟨none, [1], some 0, none⟩, 2⟩

/-- A session waiting for the time. -/
def sampleAwaitTime : Session :=
  ⟨some .AWAIT_TIME, ⟨some [("date", some "2025-08-20")], [1, 2, 3], some 0, none⟩, 4⟩

/-- A session waiting for an image. -/
def sampleAwaitImage : Session := ⟨some .AWAIT_IMAGE, ⟨none, [1], some 0, none⟩, 2⟩

/-- A session at the confirmation step. -/
def sampleConfirmSession : Session := ⟨some .CONFIRM_DETAILS, sampleConfirmUD, 13⟩

/-- A well-shaped time range followed by a trailing newline. -/
def newlineTime : String := "19:00-21:00\n"

/-- The freshness/anchor invariant maintained by every handler: both
anchors are ids already issued (below the counter), and no transcript
id equals an anchor id. -/
def SessionInv (s : Session) : Prop :=
  (∀ a, s.ud.initial_message_id = some a → a < s.nextId) ∧
  (∀ a, s.ud.quoted_image_id = some a → a < s.nextId) ∧
  (∀ m ∈ s.ud.messages_to_delete,
    s.ud.initial_message_id ≠ some m ∧ s.ud.quoted_image_id ≠ some m)

/-! ## Characterisation of the validator tokens -/

theorem hourOK_iff (a b : Char) :
    hourOK a b = true ↔
      isDig a = true ∧ isDig b = true ∧
        10 * (a.toNat - 48) + (b.toNat - 48) ≤ 23 := by
  simp only [hourOK, isDig, Bool.or_eq_true, Bool.and_eq_true, decide_eq_true_eq]
  omega

theorem minuteOK_iff (a b : Char) :
    minuteOK a b = true ↔
      isDig a = true ∧ isDig b = true ∧
        10 * (a.toNat - 48) + (b.toNat - 48) ≤ 59 := by
  simp only [minuteOK, isDig, Bool.or_eq_true, Bool.and_eq_true, decide_eq_true_eq]
  omega

theorem monthTok_iff (cs : List Char) :
    monthTok cs = true ↔
      (cs.length = 1 ∨ cs.length = 2) ∧ (∀ c ∈ cs, isDig c = true) ∧
        1 ≤ digitsVal cs ∧ digitsVal cs ≤ 12 := by
  match cs with
  | [] => simp [monthTok]
  | [c] => simp [monthTok, isDig, digitsVal]; omega
  | [a, b] => simp [monthTok, isDig, digitsVal]; omega
  | c1 :: c2 :: c3 :: cs' => simp [monthTok, isDig, digitsVal]

theorem dayTok_iff (cs : List Char) :
    dayTok cs = true ↔
      (cs.length = 1 ∨ cs.length = 2) ∧ (∀ c ∈ cs, isDig c = true) ∧
        1 ≤ digitsVal cs ∧ digitsVal cs ≤ 31 := by
  match cs with
  | [] => simp [dayTok]
  | [c] => simp [dayTok, isDig, digitsVal]; omega
  | [a, b] => simp [dayTok, isDig, digitsVal]; omega
  | c1 :: c2 :: c3 :: cs' => simp [dayTok, isDig, digitsVal]

theorem daysInMonth_le_31 (y m : Nat) : daysInMonth y m ≤ 31 := by
  unfold daysInMonth; split_ifs <;> omega

theorem takeWhile_append_of_all {p : Char → Bool} {l r : List Char} {x : Char}
    (hl : ∀ c ∈ l, p c = true) (hx : p x = false) :
    (l ++ x :: r).takeWhile p = l ∧ (l ++ x :: r).dropWhile p = x :: r := by
  induction l with
  | nil => simp [List.takeWhile_cons, List.dropWhile_cons, hx]
  | cons a l ih =>
    have ha : p a = true := hl a (by simp)
    have ih' := ih (fun c hc => hl c (by simp [hc]))
    simp [List.takeWhile_cons, List.dropWhile_cons, ha, ih'.1, ih'.2]

/-- The embedded `strptime('%Y-%m-%d')` accepts exactly the strings made
of a four-digit year (at least 0001), a hyphen, a one- or two-digit
month in 1-12, a hyphen, and a one- or two-digit day that is
calendar-valid for the year and month. -/
theorem strptimeYmdChars_eq_some_iff (cs : List Char) (y m d : Nat) :
    strptimeYmdChars cs = some (y, m, d) ↔ specStrptimeAcceptChars cs y m d := by
  constructor
  · intro h
    match cs with
    | [] => simp [strptimeYmdChars] at h
    | [c1] => simp [strptimeYmdChars] at h
    | [c1, c2] => simp [strptimeYmdChars] at h
    | [c1, c2, c3] => simp [strptimeYmdChars] at h
    | [c1, c2, c3, c4] => simp [strptimeYmdChars] at h
    | y1 :: y2 :: y3 :: y4 :: hy :: rest =>
      rw [strptimeYmdChars] at h
      split at h
      case isFalse => exact absurd h (by simp)
      case isTrue hcond =>
        obtain ⟨rfl, hd1, hd2, hd3, hd4⟩ := hcond
        revert h
        split
        case h_2 => intro h; exact absurd h (by simp)
        case h_1 h2 ds hsplit =>
          intro h
          split at h
          case isFalse => exact absurd h (by simp)
          case isTrue hcond2 =>
            obtain ⟨rfl, hmt, hdt⟩ := hcond2
            split at h
            case isFalse => exact absurd h (by simp)
            case isTrue hcond3 =>
              obtain ⟨hy1, hdm⟩ := hcond3
              injection h with h
              simp only [Prod.mk.injEq] at h
              obtain ⟨h1, h2, h3⟩ := h
              subst h1; subst h2; subst h3
              obtain ⟨hml, hmd, hm1, hm12⟩ := (monthTok_iff _).mp hmt
              obtain ⟨hdl, hdd, hd1', hd31⟩ := (dayTok_iff _).mp hdt
              have hsp := List.takeWhile_append_dropWhile (p := isDig) (l := rest)
              have hrest : rest = rest.takeWhile isDig ++ '-' :: ds := by
                rw [← hsplit, hsp]
              refine ⟨[y1, y2, y3, y4], rest.takeWhile isDig, ds,
                ?_, by simp, by simp [hd1, hd2, hd3, hd4], rfl, hy1,
                hml, hmd, rfl, hm1, hm12, hdl, hdd, rfl, hd1', hdm⟩
              conv_lhs => rw [hrest]
              simp
  · rintro ⟨ys, ms, ds, hcs, hylen, hyd, hyval, hy1, hmlen, hmd, hmval, hm1, hm12,
      hdlen, hdd, hdval, hd1, hdm⟩
    match ys, hylen with
    | [y1, y2, y3, y4], _ =>
      subst hcs
      have hsplit := takeWhile_append_of_all (p := isDig) (l := ms) (r := ds) (x := '-')
        hmd (by decide)
      show strptimeYmdChars (y1 :: y2 :: y3 :: y4 :: '-' :: (ms ++ '-' :: ds)) =
        some (y, m, d)
      rw [strptimeYmdChars]
      rw [hsplit.2, hsplit.1]
      rw [if_pos ⟨rfl, hyd y1 (by simp), hyd y2 (by simp), hyd y3 (by simp),
        hyd y4 (by simp)⟩]
      have hmt : monthTok ms = true :=
        (monthTok_iff ms).mpr ⟨hmlen, hmd, hmval ▸ hm1, hmval ▸ hm12⟩
      have hdt : dayTok ds = true := by
        refine (dayTok_iff ds).mpr ⟨hdlen, hdd, hdval ▸ hd1, ?_⟩
        have := daysInMonth_le_31 y m
        omega
      have hy1' : 1 ≤ digitsVal [y1, y2, y3, y4] := hyval ▸ hy1
      have hdm' : digitsVal ds ≤
          daysInMonth (digitsVal [y1, y2, y3, y4]) (digitsVal ms) := by
        rw [← hyval, ← hmval, ← hdval]; exact hdm
      simp [hmt, hdt, hy1', hdm', hyval, hmval, hdval]

/-- The time-pattern body accepts exactly the claimed `HH:MM-HH:MM`
shapes with in-range hours and minutes. -/
theorem timeCore_iff (cs : List Char) :
    timeCore cs = true ↔ specTimeShapeChars cs := by
  constructor
  · intro h
    rcases cs with _ | ⟨a, _ | ⟨b, _ | ⟨k1, _ | ⟨c, _ | ⟨d, _ | ⟨k2, _ | ⟨e, _ | ⟨f,
      _ | ⟨k3, _ | ⟨g, _ | ⟨hh, _ | ⟨x, rest⟩⟩⟩⟩⟩⟩⟩⟩⟩⟩⟩⟩
    all_goals simp [timeCore] at h
    obtain ⟨⟨⟨⟨⟨⟨rfl, rfl⟩, rfl⟩, h1⟩, h2⟩, h3⟩, h4⟩ := h
    obtain ⟨ha, hb, hab⟩ := (hourOK_iff _ _).mp h1
    obtain ⟨hc, hd, hcd⟩ := (minuteOK_iff _ _).mp h2
    obtain ⟨he, hf, hef⟩ := (hourOK_iff _ _).mp h3
    obtain ⟨hg, hhh, hgh⟩ := (minuteOK_iff _ _).mp h4
    exact ⟨a, b, c, d, e, f, g, hh, rfl, by simp [ha, hb, hc, hd, he, hf, hg, hhh],
      hab, hcd, hef, hgh⟩
  · rintro ⟨a, b, c, d, e, f, g, h, rfl, hdig, hab, hcd, hef, hgh⟩
    simp only [List.mem_cons, List.not_mem_nil, or_false, forall_eq_or_imp,
      forall_eq] at hdig
    obtain ⟨ha, hb, hc, hd, he, hf, hg, hh⟩ := hdig
    simp [timeCore, hourOK_iff, minuteOK_iff, ha, hb, hc, hd, he, hf, hg, hh,
      hab, hcd, hef, hgh]

/-- The anchored pattern with Python's `$` accepts exactly the claimed
shapes, optionally followed by one trailing newline. -/
theorem timePatternMatch_iff (s : String) :
    timePatternMatch s = true ↔
      specTimeShapeChars s.data ∨
        ∃ cs : List Char, s.data = cs ++ ['\n'] ∧ specTimeShapeChars cs := by
  unfold timePatternMatch
  rw [Bool.or_eq_true, timeCore_iff]
  constructor
  · rintro (h | h)
    · exact Or.inl h
    · right
      cases hl : s.data.getLast? with
      | none => rw [hl] at h; simp at h
      | some c =>
        rw [hl] at h
        simp only [Bool.and_eq_true, beq_iff_eq] at h
        obtain ⟨rfl, hcore⟩ := h
        have hne : s.data ≠ [] := by
          intro hnil; rw [hnil] at hl; simp at hl
        refine ⟨s.data.dropLast, ?_, (timeCore_iff _).mp hcore⟩
        have hlast : s.data.getLast hne = '\n' := by
          have := List.getLast?_eq_getLast s.data hne
          rw [hl] at this
          exact (Option.some.injEq _ _ ▸ this).symm
        conv_lhs => rw [← List.dropLast_append_getLast hne, hlast]
  · rintro (h | ⟨cs, hcs, hspec⟩)
    · exact Or.inl h
    · right
      rw [hcs, List.getLast?_concat, List.dropLast_concat]
      simpa [timeCore_iff] using hspec

/-! ## Dictionary lemmas -/

theorem dictGet_dictSet (d : PyDict) (k : String) (v : Option String) :
    dictGet (dictSet d k v) k = some v := by
  unfold dictSet
  split
  case isTrue hany =>
    induction d with
    | nil => simp at hany
    | cons kv d ih =>
      by_cases hk : kv.1 == k
      · simp [dictGet, List.find?, hk]
      · simp only [List.any_cons, hk, Bool.false_or] at hany
        simpa [dictGet, List.find?, hk] using ih hany
  case isFalse hany =>
    induction d with
    | nil => simp [dictGet, List.find?]
    | cons kv d ih =>
      simp only [List.any_cons, Bool.or_eq_true, not_or] at hany
      have hk : (kv.1 == k) = false := by
        cases hkv : kv.1 == k
        · rfl
        · exact absurd hkv hany.1
      simpa [dictGet, List.find?, hk] using ih (by simp [hany.2])

theorem pyGet_dictSet (d : PyDict) (k : String) (v : String) :
    pyGet (dictSet d k (some v)) k = some v := by
  simp [pyGet, dictGet_dictSet]



/-! ## Effect-trace helper lemmas -/

theorem sentTexts_append (l1 l2 : List Effect) :
    sentTexts (l1 ++ l2) = sentTexts l1 ++ sentTexts l2 := by
  simp [sentTexts]

theorem sentTexts_callCreate_cons (d t loc : Option String) (x : String)
    (l : List Effect) :
    sentTexts (Effect.callCreateEvent d t loc x :: l) = sentTexts l := rfl

theorem sentTexts_send_cons (x : String) (l : List Effect) :
    sentTexts (Effect.sendMessage x :: l) = x :: sentTexts l := rfl

theorem sentTexts_nil : sentTexts [] = [] := rfl

theorem sentTexts_deleteEffects (ids : List Nat) :
    sentTexts (deleteEffects ids) = [] := by
  simp [sentTexts, deleteEffects, List.filterMap_map]

theorem deletedIds_deleteEffects (ids : List Nat) :
    deletedIds (deleteEffects ids) = ids := by
  induction ids with
  | nil => rfl
  | cons i ids ih =>
    simp only [deleteEffects, List.map_cons] at ih ⊢
    simp [deletedIds] at ih ⊢
    exact ih

theorem countP_callCreate_deleteEffects (ids : List Nat) :
    (deleteEffects ids).countP Effect.isCallCreate = 0 := by
  induction ids with
  | nil => rfl
  | cons i ids ih =>
    simp only [deleteEffects, List.map_cons, List.countP_cons] at ih ⊢
    simp [Effect.isCallCreate, ih]

/-- C1: for a confirm press in `CONFIRM_DETAILS` with a non-empty booking
draft, the engine calls the calendar adapter exactly once (the first
effect), then emits exactly one final message: the success text
containing the returned link when the adapter returns a link, the
generic failure text when it returns null, and the generic error text
when it raises (the embedding is a total function, so the exception
never propagates past the engine); the user data is cleared in every
case. -/
theorem C1_confirm_adapter_once_final_message_cleared :
    ∀ (maxCapacity : String) (ud : UserData) (b : PyDict) (outcome : AdapterOutcome),
      ud.booking = some b → b ≠ [] →
      (confirm_event maxCapacity ud outcome).1.countP Effect.isCallCreate = 1 ∧
      (∃ first rest, (confirm_event maxCapacity ud outcome).1 = first :: rest ∧
        first.isCallCreate = true ∧ rest.countP Effect.isCallCreate = 0) ∧
      (∀ l, outcome = .link l →
        sentTexts (confirm_event maxCapacity ud outcome).1 = [confirmSuccessText l] ∧
        ∃ pre post, confirmSuccessText l = pre ++ l ++ post) ∧
      (outcome = .null →
        sentTexts (confirm_event maxCapacity ud outcome).1 = [createFailedText]) ∧
      (outcome = .raises →
        sentTexts (confirm_event maxCapacity ud outcome).1 = [createErrorText]) ∧
      (confirm_event maxCapacity ud outcome).2 = clearedUD := by
  intro maxCapacity ud b outcome hb hbne
  have hfalsy : bookingFalsy ud.booking = false := by
    rw [hb]
    simpa [bookingFalsy] using hbne
  unfold confirm_event
  rw [if_neg (by simp [hfalsy])]
  cases outcome with
  | link l =>
    refine ⟨?_, ⟨_, _, rfl, rfl, ?_⟩, ?_, by simp, by simp, rfl⟩
    · simp [List.countP_cons, Effect.isCallCreate, countP_callCreate_deleteEffects]
    · simp [List.countP_append, countP_callCreate_deleteEffects, List.countP_cons,
        Effect.isCallCreate]
    · rintro l' ⟨rfl⟩
      refine ⟨by simp [sentTexts_callCreate_cons, sentTexts_send_cons, sentTexts_append,
        sentTexts_deleteEffects, sentTexts_nil], ?_⟩
      exact ⟨"✅ Confirmed! A Google Calendar event has been created.\n\n**Event Link:** ",
        "\n\nThis conversation is now over. To create another event, use /create.", rfl⟩
  | null =>
    refine ⟨?_, ⟨_, _, rfl, rfl, ?_⟩, by simp, ?_, by simp, rfl⟩
    · simp [List.countP_cons, Effect.isCallCreate, countP_callCreate_deleteEffects]
    · simp [List.countP_append, countP_callCreate_deleteEffects, List.countP_cons,
        Effect.isCallCreate]
    · intro _
      simp [sentTexts_callCreate_cons, sentTexts_send_cons, sentTexts_append,
        sentTexts_deleteEffects, sentTexts_nil]
  | raises =>
    refine ⟨?_, ⟨_, _, rfl, rfl, ?_⟩, by simp, by simp, ?_, rfl⟩
    · simp [List.countP_cons, Effect.isCallCreate]
    · simp [List.countP_cons, Effect.isCallCreate]
    · intro _
      simp [sentTexts]

/-- Witness for C1 at the sample confirmation data with a link outcome. -/
theorem C1_witness :
    (confirm_event "6" sampleConfirmUD (.link "https://cal/e1")).2 = clearedUD ∧
    (confirm_event "6" sampleConfirmUD (.link "https://cal/e1")).1.countP
      Effect.isCallCreate = 1 :=
  ⟨(C1_confirm_adapter_once_final_message_cleared "6" sampleConfirmUD sampleDraft (.link "https://cal/e1") rfl
      (by decide)).2.2.2.2.2,
   (C1_confirm_adapter_once_final_message_cleared "6" sampleConfirmUD sampleDraft (.link "https://cal/e1") rfl (by decide)).1⟩


/-- C2 (code bug, failing path evaluated): on the adapter-exception
terminal transition of `confirm_event` no deletion is attempted at all
(`delete_messages` sits inside the `try`, after the adapter call),
while the transcript list `[11, 12]` is non-empty; the generic error
text is still sent and the session is cleared.  By contrast, the null
outcome deletes every queued id.  This contradicts the claim that
deletion is attempted at every terminal transition including an
adapter exception. -/
theorem C2_adapter_exception_skips_deletion :
    sampleConfirmUD.messages_to_delete = [11, 12] ∧
    deletedIds (confirm_event "6" sampleConfirmUD .raises).1 = [] ∧
    sentTexts (confirm_event "6" sampleConfirmUD .raises).1 = [createErrorText] ∧
    (confirm_event "6" sampleConfirmUD .raises).2 = clearedUD ∧
    deletedIds (confirm_event "6" sampleConfirmUD .null).1 = [11, 12] :=
  ⟨rfl, rfl, rfl, rfl, rfl⟩

/-- C3 (code bug, evaluated): `confirm_event` passes the keyword
argument `description`, which names no parameter of
`create_calendar_event` (signature `date, time_range, location,
summary`), so Python keyword binding fails: every confirm raises
`TypeError`.  The caller does synthesize the `MAX=` description (shown
in the first effect), but the adapter's own event description is
`A badminton session at` plus the location, which does not contain the
annotation. -/
theorem C3_description_kwarg_rejected :
    pyKwargsBindOk create_calendar_event_params confirm_call_kwargs = false ∧
    "description" ∉ create_calendar_event_params.map Prod.fst ∧
    (∃ rest, (confirm_event "6" sampleConfirmUD .raises).1 =
      Effect.callCreateEvent (some "2025-08-20") (some "19:00-21:00") (some "Hall")
        "MAX=6\nCourt booked by Alice. Location: Hall" :: rest) ∧
    ¬ ("MAX=".data <:+: (gceEventDescription "Hall").data) :=
  ⟨by decide, by decide, ⟨_, rfl⟩, by decide⟩


/-- C5 counterexample: `2025-8-20` (single-digit month) is NOT of the
claimed literal shape `YYYY-MM-DD` (two-digit month and day), yet
`strptime` accepts it and the `AWAIT_DATE` transition stores it and
advances to `AWAIT_TIME` — refuting the claim that every string other
than the claimed shape re-prompts. -/
theorem C5_counterexample :
    strptimeYmd "2025-8-20" = some (2025, 8, 20) ∧
    ¬ specDateClaimShape "2025-8-20" ∧
    (get_date sampleAwaitDate "2025-8-20").1.conv = some .AWAIT_TIME ∧
    pyGet ((get_date sampleAwaitDate "2025-8-20").1.ud.booking.getD []) "date" =
      some "2025-8-20" := by
  refine ⟨by decide, ?_, by rfl, by rfl⟩
  rintro ⟨y1, y2, y3, y4, m1, m2, d1, d2, heq, -⟩
  have h9 : "2025-8-20".data = ['2', '0', '2', '5', '-', '8', '-', '2', '0'] := rfl
  rw [h9] at heq
  simp at heq

/-- C5 (amended): the `AWAIT_DATE` transition accepts exactly the
strings made of a four-digit year (at least 0001), a one- OR two-digit
month 1-12 and a one- or two-digit calendar-valid day, separated by
hyphens (the acceptance set of `strptime` with format `%Y-%m-%d`,
characterised exactly on ASCII inputs); every calendar-valid
`YYYY-MM-DD` string is accepted, stored verbatim, and advances to
`AWAIT_TIME`; every rejected string re-prompts, remains in
`AWAIT_DATE`, and leaves the draft unchanged. -/
theorem C5_amended_acceptance :
    (∀ s : String, specDateClaimShape s → (strptimeYmd s).isSome = true) ∧
    (∀ (s : String) (y m d : Nat), asciiStr s →
      (strptimeYmd s = some (y, m, d) ↔ specStrptimeAcceptChars s.data y m d)) ∧
    (∀ (st : Session) (t : String), t ≠ "" → strptimeYmd t = none →
      (get_date st t).1.conv = some .AWAIT_DATE ∧
      (get_date st t).1.ud.booking = st.ud.booking) ∧
    (∀ (st : Session) (t : String), t ≠ "" → (strptimeYmd t).isSome = true →
      (get_date st t).1.conv = some .AWAIT_TIME ∧
      pyGet ((get_date st t).1.ud.booking.getD []) "date" = some t) := by
  refine ⟨?_, ?_, ?_, ?_⟩
  · rintro s ⟨y1, y2, y3, y4, m1, m2, d1, d2, heq, hdig, hy1, hm1, hm12, hd1, hdm⟩
    simp only [List.mem_cons, List.not_mem_nil, or_false, forall_eq_or_imp,
      forall_eq] at hdig
    obtain ⟨h1, h2, h3, h4, h5, h6, h7, h8⟩ := hdig
    have : strptimeYmdChars s.data =
        some (digitsVal [y1, y2, y3, y4], digitsVal [m1, m2], digitsVal [d1, d2]) := by
      refine (strptimeYmdChars_eq_some_iff _ _ _ _).mpr
        ⟨[y1, y2, y3, y4], [m1, m2], [d1, d2], heq, by simp,
          by simp [h1, h2, h3, h4], rfl, hy1, Or.inr rfl, by simp [h5, h6], rfl,
          hm1, hm12, Or.inr rfl, by simp [h7, h8], rfl, hd1, hdm⟩
    simp [strptimeYmd, this]
  · intro s y m d _
    exact strptimeYmdChars_eq_some_iff s.data y m d
  · intro st t ht hnone
    unfold get_date
    rw [if_neg ht]
    simp [hnone, strptimeYmd] at hnone ⊢
    simp [hnone, withConv, appendDel]
  · intro st t ht hsome
    unfold get_date
    rw [if_neg ht]
    obtain ⟨v, hv⟩ := Option.isSome_iff_exists.mp hsome
    rw [hv]
    constructor
    · rfl
    · simp [withConv, appendDel, storeBookingField, setBooking, pyGet_dictSet]

/-- Witness for C5: the canonical date is accepted and stored; the
spec's rejection scenario `20-08-2025` re-prompts in place. -/
theorem C5_witness :
    (strptimeYmd "2025-08-20").isSome = true ∧
    (get_date sampleAwaitDate "2025-08-20").1.conv = some .AWAIT_TIME ∧
    pyGet ((get_date sampleAwaitDate "2025-08-20").1.ud.booking.getD []) "date" =
      some "2025-08-20" ∧
    (get_date sampleAwaitDate "20-08-2025").1.conv = some .AWAIT_DATE := by
  refine ⟨?_, ?_, ?_, ?_⟩
  · exact C5_amended_acceptance.1 "2025-08-20"
      ⟨'2', '0', '2', '5', '0', '8', '2', '0', rfl, by decide, by decide, by decide,
        by decide, by decide, by decide⟩
  · exact (C5_amended_acceptance.2.2.2 sampleAwaitDate "2025-08-20" (by decide)
      (by decide)).1
  · exact (C5_amended_acceptance.2.2.2 sampleAwaitDate "2025-08-20" (by decide)
      (by decide)).2
  · exact (C5_amended_acceptance.2.2.1 sampleAwaitDate "20-08-2025" (by decide)
      (by decide)).1

/-- C6 counterexample: a well-shaped time range followed by a trailing
newline is not of the claimed `HH:MM-HH:MM` shape, yet Python's `$`
matches before a final newline, so validation succeeds and the
transition advances to `AWAIT_LOCATION` — refuting the claim that
validation succeeds for exactly the shape strings. -/
theorem C6_counterexample :
    timePatternMatch newlineTime = true ∧
    ¬ specTimeShapeChars newlineTime.data ∧
    (get_time sampleAwaitTime newlineTime).1.conv = some .AWAIT_LOCATION := by
  refine ⟨by decide, ?_, by rfl⟩
  rintro ⟨a, b, c, d, e, f, g, h, heq, -⟩
  have h12 : newlineTime.data =
      ['1', '9', ':', '0', '0', '-', '2', '1', ':', '0', '0', '\n'] := rfl
  rw [h12] at heq
  simp at heq

/-- C6 (amended): time-range validation succeeds exactly for the
strings `HH:MM-HH:MM` with hours 00-23 and minutes 00-59, optionally
followed by one trailing newline (characterised exactly on ASCII
inputs); `25:00-26:00`, `9:00-10:00` and `19:00` all fail, a failing
input keeps the conversation in `AWAIT_TIME` with the draft unchanged,
and start < end is not enforced (`21:00-19:00` is accepted). -/
theorem C6_amended_acceptance :
    (∀ s : String, asciiStr s →
      (timePatternMatch s = true ↔
        specTimeShapeChars s.data ∨
          ∃ cs : List Char, s.data = cs ++ ['\n'] ∧ specTimeShapeChars cs)) ∧
    timePatternMatch "25:00-26:00" = false ∧
    timePatternMatch "9:00-10:00" = false ∧
    timePatternMatch "19:00" = false ∧
    timePatternMatch "21:00-19:00" = true ∧
    (∀ (st : Session) (t : String), t ≠ "" → timePatternMatch t = false →
      (get_time st t).1.conv = some .AWAIT_TIME ∧
      (get_time st t).1.ud.booking = st.ud.booking) ∧
    (∀ (st : Session) (t : String), t ≠ "" → timePatternMatch t = true →
      (get_time st t).1.conv = some .AWAIT_LOCATION ∧
      pyGet ((get_time st t).1.ud.booking.getD []) "time" = some t) := by
  refine ⟨fun s _ => timePatternMatch_iff s, by decide, by decide, by decide,
    by decide, ?_, ?_⟩
  · intro st t ht hno
    unfold get_time
    rw [if_neg ht]
    simp [hno, withConv, appendDel]
  · intro st t ht hyes
    unfold get_time
    rw [if_neg ht]
    simp [hyes, withConv, appendDel, storeBookingField, setBooking, pyGet_dictSet]

/-- Witness for C6: a canonical in-range time is accepted and advances;
an out-of-range hour re-prompts in place. -/
theorem C6_witness :
    timePatternMatch "19:00-21:00" = true ∧
    (get_time sampleAwaitTime "19:00-21:00").1.conv = some .AWAIT_LOCATION ∧
    (get_time sampleAwaitTime "25:00-26:00").1.conv = some .AWAIT_TIME := by
  refine ⟨?_, ?_, ?_⟩
  · exact (C6_amended_acceptance.1 "19:00-21:00" (by decide)).mpr
      (Or.inl ⟨'1', '9', '0', '0', '2', '1', '0', '0', rfl, by decide, by decide,
        by decide, by decide, by decide⟩)
  · exact (C6_amended_acceptance.2.2.2.2.2.2 sampleAwaitTime "19:00-21:00"
      (by decide) (by decide)).1
  · exact (C6_amended_acceptance.2.2.2.2.2.1 sampleAwaitTime "25:00-26:00"
      (by decide) (by decide)).1

/-- C7 (code bug, evaluated): `fallback_handler` (the generic reply for
unexpected input) is registered nowhere — neither in any state's
handler list nor in the fallbacks, which hold only the `/cancel`
command — so a text message arriving in `CONFIRM_DETAILS` matches no
handler: the dispatch is `none` and the step is a no-op (state
unchanged, nothing sent); the conversation does NOT end. -/
theorem C7_fallback_unregistered_input_ignored :
    dispatch .CONFIRM_DETAILS .text = none ∧
    (∀ st : ConvState, ∀ p ∈ stateHandlers st, p.2 ≠ Handler.fallback_handler) ∧
    (∀ p ∈ convFallbacks, p.2 ≠ Handler.fallback_handler) ∧
    (∀ s : Session, s.conv = some .CONFIRM_DETAILS →
      step "6" s (.textMsg "hello") = (s, [])) := by
  refine ⟨rfl, ?_, by decide, ?_⟩
  · intro st
    cases st <;> decide
  · rintro ⟨conv, ud, n⟩ h
    simp only at h
    subst h
    rfl

/-- Witness for C7: the no-op step at the sample confirmation session. -/
theorem C7_witness :
    step "6" sampleConfirmSession (.textMsg "hello") = (sampleConfirmSession, []) :=
  C7_fallback_unregistered_input_ignored.2.2.2 sampleConfirmSession rfl

/-- C8 (code bug, evaluated): the check-upcoming handler calls the
adapter's `check_upcoming_events(days=14)`, but
`google_calendar_event_creator.py` defines no such function (its only
top-level function is `create_calendar_event`), so every invocation
raises `AttributeError` and no reply — formatted list or empty-result
message — is ever sent. -/
theorem C8_check_upcoming_attribute_error :
    (∀ events : List CalEvent,
      check_badminton_session_command events = .attributeError) ∧
    google_calendar_event_creator_defs.contains "check_upcoming_events" = false ∧
    checkRequestedDays = 14 := by
  refine ⟨fun events => ?_, by decide, rfl⟩
  simp [check_badminton_session_command, google_calendar_event_creator_defs]

/-- C9 counterexample: the all-null extraction result has no field
carrying a value, yet it is a non-empty dict, so the falsy check on
the result fails to fire: the transition populates the draft with it
and advances to `CONFIRM_DETAILS` instead of treating it as extraction
failure. -/
theorem C9_counterexample :
    allFieldsAbsent allNullExtraction ∧
    bookingFalsy (some allNullExtraction) = false ∧
    (process_photo_core sampleAwaitImage false 100 (.ok allNullExtraction)).1.conv =
      some .CONFIRM_DETAILS ∧
    (process_photo_core sampleAwaitImage false 100 (.ok allNullExtraction)).1.conv ≠
      some .AWAIT_IMAGE ∧
    (process_photo_core sampleAwaitImage false 100
      (.ok allNullExtraction)).1.ud.booking = some allNullExtraction := by
  refine ⟨?_, by rfl, by rfl, by decide, by rfl⟩
  unfold allFieldsAbsent allNullExtraction
  decide

/-- C9 (amended): within the size limit, the extraction branch
re-prompts in `AWAIT_IMAGE` with the draft untouched exactly when the
returned dict is empty (the adapter's failure value); any non-empty
result — including one whose fields are all null — populates the draft
wholesale and advances. -/
theorem C9_amended_empty_only_failure :
    ∀ (s : Session) (isReply : Bool) (size : Nat) (d : PyDict),
      size ≤ 5 * 1024 * 1024 →
      (((process_photo_core s isReply size (.ok d)).1.conv = some .AWAIT_IMAGE ∧
        (process_photo_core s isReply size (.ok d)).1.ud.booking = s.ud.booking) ↔
        d = []) := by
  intro s r size d hsz
  unfold process_photo_core
  rw [if_neg (by omega)]
  rcases d with _ | ⟨kv, d⟩
  · cases r <;> simp [withConv, appendDel]
  · cases r <;> simp [withConv, appendDel, setBooking]

/-- Witness for C9's amended theorem at the empty extraction result. -/
theorem C9_witness :
    (process_photo_core sampleAwaitImage false 100 (.ok [])).1.conv =
      some .AWAIT_IMAGE :=
  ((C9_amended_empty_only_failure sampleAwaitImage false 100 [] (by decide)).mpr rfl).1

/-- C10: the photo size gate skips the extraction adapter exactly when
the file size strictly exceeds `5 * 1024 * 1024` bytes, in which case
it re-prompts with the too-large text, stays in `AWAIT_IMAGE` and
leaves the draft unchanged; any size up to and including 5 MiB is
forwarded to the adapter (exactly one extraction call). -/
theorem C10_size_gate_strict :
    ∀ (s : Session) (isReply : Bool) (size : Nat) (res : Except Unit PyDict),
      ((process_photo_core s isReply size res).2.countP Effect.isCallExtract = 0 ↔
        5 * 1024 * 1024 < size) ∧
      (5 * 1024 * 1024 < size →
        (process_photo_core s isReply size res).1.conv = some .AWAIT_IMAGE ∧
        (process_photo_core s isReply size res).1.ud.booking = s.ud.booking ∧
        sentTexts (process_photo_core s isReply size res).2 = [tooLargeText]) ∧
      (size ≤ 5 * 1024 * 1024 →
        (process_photo_core s isReply size res).2.countP Effect.isCallExtract = 1) := by
  intro s r size res
  unfold process_photo_core
  by_cases hsz : 5 * 1024 * 1024 < size
  · rw [if_pos hsz]
    refine ⟨by simp [List.countP_cons, Effect.isCallExtract, hsz], fun _ =>
      ⟨?_, ?_, by rfl⟩, fun hle => absurd hsz (by omega)⟩
    · cases r <;> simp [withConv, appendDel]
    · cases r <;> simp [withConv, appendDel]
  · rw [if_neg hsz]
    rcases res with e | d
    · refine ⟨by simp [List.countP_cons, Effect.isCallExtract, hsz],
        fun hgt => absurd hgt hsz,
        fun _ => by simp [List.countP_cons, Effect.isCallExtract]⟩
    · by_cases hd : d.isEmpty <;>
        refine ⟨by simp [hd, List.countP_cons, Effect.isCallExtract, hsz],
          fun hgt => absurd hgt hsz,
          fun _ => by simp [hd, List.countP_cons, Effect.isCallExtract]⟩

/-- Witness for C10: a photo of exactly 5 MiB passes the gate and is
forwarded to the extraction adapter. -/
theorem C10_witness :
    (process_photo_core sampleAwaitImage false (5 * 1024 * 1024)
      (.ok sampleDraft)).2.countP Effect.isCallExtract = 1 :=
  (C10_size_gate_strict sampleAwaitImage false (5 * 1024 * 1024) (.ok sampleDraft)).2.2 (by omega)


/-! ## C4 machinery: the anchor invariant is inductive -/

theorem inv_appendDel {s : Session} (h : SessionInv s) : SessionInv (appendDel s) := by
  obtain ⟨h1, h2, h3⟩ := h
  refine ⟨?_, ?_, ?_⟩
  · intro a ha
    simp only [appendDel] at ha ⊢
    exact Nat.lt_succ_of_lt (h1 a ha)
  · intro a ha
    simp only [appendDel] at ha ⊢
    exact Nat.lt_succ_of_lt (h2 a ha)
  · intro m hm
    simp only [appendDel, List.mem_append, List.mem_singleton] at hm ⊢
    rcases hm with hm | rfl
    · exact h3 m hm
    · constructor
      · intro hc
        exact absurd (h1 _ hc) (by omega)
      · intro hc
        exact absurd (h2 _ hc) (by omega)

theorem inv_withConv {s : Session} (st : ConvState) (h : SessionInv s) :
    SessionInv (withConv s st) := h

theorem inv_setBooking {s : Session} (d : PyDict) (h : SessionInv s) :
    SessionInv (setBooking s d) := h

theorem inv_storeBookingField {s : Session} (k v : String) (h : SessionInv s) :
    SessionInv (storeBookingField s k v) := h

theorem inv_cleared (c : Option ConvState) (n : Nat) : SessionInv ⟨c, clearedUD, n⟩ :=
  ⟨fun a ha => by simp [clearedUD] at ha, fun a ha => by simp [clearedUD] at ha,
   fun m hm => by simp [clearedUD] at hm⟩

theorem confirm_event_clears (m : String) (ud : UserData) (o : AdapterOutcome) :
    (confirm_event m ud o).2 = clearedUD := by
  unfold confirm_event
  split <;> rfl

theorem inv_process_photo_core {s : Session} (h : SessionInv s) (r : Bool) (sz : Nat)
    (res : Except Unit PyDict) : SessionInv (process_photo_core s r sz res).1 := by
  have h1 : SessionInv (if r = true then s else appendDel s) := by
    cases r
    · simpa using inv_appendDel h
    · simpa using h
  unfold process_photo_core
  by_cases hsz : 5 * 1024 * 1024 < sz
  · rw [if_pos hsz]
    exact inv_withConv _ (inv_appendDel h1)
  · rw [if_neg hsz]
    rcases res with e | d
    · exact inv_withConv _ (inv_appendDel h1)
    · by_cases hd : d.isEmpty
      · simp only [hd, if_true]
        exact inv_withConv _ (inv_appendDel h1)
      · simp only [hd, if_false]
        exact inv_withConv _ (inv_appendDel (inv_setBooking d h1))

theorem inv_create_command {s : Session} (h : SessionInv s)
    (q : Option (Nat × Nat × Except Unit PyDict)) (hwf : WFEv s (.createCmd q)) :
    SessionInv (create_command s q).1 := by
  obtain ⟨h1, h2, h3⟩ := h
  unfold create_command
  cases q with
  | none =>
    refine inv_withConv _ (inv_appendDel ⟨?_, ?_, ?_⟩)
    · intro a ha
      dsimp only at ha ⊢
      simp only [Option.some.injEq] at ha
      omega
    · intro a ha
      dsimp only at ha ⊢
      exact Nat.lt_succ_of_lt (h2 a ha)
    · intro m hm
      simp at hm
  | some q' =>
    obtain ⟨qid, sz, res⟩ := q'
    have hwf' : qid < s.nextId := hwf
    refine inv_process_photo_core ⟨?_, ?_, ?_⟩ _ _ _
    · intro a ha
      dsimp only at ha ⊢
      simp only [Option.some.injEq] at ha
      omega
    · intro a ha
      dsimp only at ha ⊢
      simp only [Option.some.injEq] at ha
      omega
    · intro m hm
      simp at hm

theorem inv_start_manual_input {s : Session} (h : SessionInv s) :
    SessionInv (start_manual_input s).1 := by
  refine inv_withConv _ (inv_appendDel ⟨h.1, h.2.1, ?_⟩)
  intro m hm
  simp at hm

theorem inv_start_image_upload {s : Session} (h : SessionInv s) :
    SessionInv (start_image_upload s).1 := by
  refine inv_withConv _ (inv_appendDel ⟨h.1, h.2.1, ?_⟩)
  intro m hm
  simp at hm

theorem inv_get_date {s : Session} (h : SessionInv s) (t : String) :
    SessionInv (get_date s t).1 := by
  unfold get_date
  by_cases ht : t = ""
  · rw [if_pos ht]
    exact h
  · rw [if_neg ht]
    cases hm : strptimeYmd t with
    | some v => exact inv_withConv _ (inv_appendDel (inv_storeBookingField _ _ (inv_appendDel h)))
    | none => exact inv_withConv _ (inv_appendDel (inv_appendDel h))

theorem inv_get_time {s : Session} (h : SessionInv s) (t : String) :
    SessionInv (get_time s t).1 := by
  unfold get_time
  by_cases ht : t = ""
  · rw [if_pos ht]
    exact h
  · rw [if_neg ht]
    by_cases hm : timePatternMatch t
    · rw [if_pos hm]
      exact inv_withConv _ (inv_appendDel (inv_storeBookingField _ _ (inv_appendDel h)))
    · rw [if_neg hm]
      exact inv_withConv _ (inv_appendDel (inv_appendDel h))

theorem inv_get_location {s : Session} (h : SessionInv s) (t : String) :
    SessionInv (get_location s t).1 := by
  unfold get_location
  by_cases ht : t = ""
  · rw [if_pos ht]
    exact h
  · rw [if_neg ht]
    exact inv_withConv _ (inv_appendDel (inv_storeBookingField _ _ (inv_appendDel h)))

theorem inv_get_booker_name {s : Session} (h : SessionInv s) (t : String) :
    SessionInv (get_booker_name s t).1 := by
  unfold get_booker_name
  by_cases ht : t = ""
  · rw [if_pos ht]
    exact h
  · rw [if_neg ht]
    exact inv_withConv _ (inv_appendDel (inv_storeBookingField _ _ (inv_appendDel h)))

theorem inv_confirm_result (m : String) (ud : UserData) (o : AdapterOutcome) (n : Nat) :
    SessionInv ⟨none, (confirm_event m ud o).2, n⟩ := by
  rw [confirm_event_clears]
  exact inv_cleared none n

/-- Every reachable session satisfies the freshness/anchor invariant. -/
theorem sessionInv_reachable : ∀ s : Session, Reachable s → SessionInv s := by
  intro s hr
  induction hr with
  | init =>
    exact ⟨fun a ha => by simp [initSession] at ha,
      fun a ha => by simp [initSession] at ha,
      fun m hm => by simp [initSession] at hm⟩
  | step maxCap s e hs hwf ih =>
    obtain ⟨conv, ud, n⟩ := s
    cases conv with
    | none =>
      cases e with
      | createCmd q => exact inv_create_command ih q hwf
      | cbUpload => exact ih
      | cbManual => exact ih
      | photoMsg sz res => exact ih
      | textMsg t => exact ih
      | cancelCmd => exact ih
      | cbConfirm o => exact ih
      | cbCancel => exact ih
    | some st =>
      cases st <;> cases e <;>
        first
          | exact ih
          | exact inv_start_image_upload ih
          | exact inv_start_manual_input ih
          | exact inv_process_photo_core ih _ _ _
          | exact inv_get_date ih _
          | exact inv_get_time ih _
          | exact inv_get_location ih _
          | exact inv_get_booker_name ih _
          | exact inv_confirm_result _ _ _ _
          | exact inv_cleared none _

/-- C4: in every reachable session state, the transcript list
`messages_to_delete` contains no id equal to an anchor id (the
`/create` command's message id or the quoted image's message id), so no
anchor is ever requested for deletion at cleanup. -/
theorem C4_transcript_disjoint_from_anchors :
    ∀ s : Session, Reachable s →
      ∀ m ∈ s.ud.messages_to_delete,
        s.ud.initial_message_id ≠ some m ∧ s.ud.quoted_image_id ≠ some m :=
  fun s hr => (sessionInv_reachable s hr).2.2

/-- Witness for C4 at a concrete reachable state: after `/create` with
no quoted photo, the transcript holds the menu message id 1, the anchor
is the command id 0, and the theorem separates them. -/
theorem C4_witness :
    (step "6" initSession (.createCmd none)).1.ud.messages_to_delete = [1] ∧
    (step "6" initSession (.createCmd none)).1.ud.initial_message_id = some 0 ∧
    (step "6" initSession (.createCmd none)).1.ud.initial_message_id ≠ some 1 ∧
    (step "6" initSession (.createCmd none)).1.ud.quoted_image_id ≠ some 1 := by
  refine ⟨rfl, rfl, ?_, ?_⟩
  · exact (C4_transcript_disjoint_from_anchors _ (.step "6" initSession (.createCmd none) .init trivial) 1
      (by decide)).1
  · exact (C4_transcript_disjoint_from_anchors _ (.step "6" initSession (.createCmd none) .init trivial) 1
      (by decide)).2

end BadmintonBot
